import Mathlib

/-!
Shallow embedding of the core simulation of the `ld58` black-hole mining game
(`src/unnamed/part_004`, class `Game`).  Numeric JS values are modelled as
exact rationals.  Geometry is kept concrete as 3-vectors of rationals; the one
systematic translation is that every comparison `distance(p, q) < r` performed
by the source on Euclidean distances is embedded as the equivalent comparison
`distSq p q < r * r` on squared distances (both sides are nonnegative, so the
comparisons agree), which keeps every definition executable over ℚ.
Rendering-only state (meshes, materials, opacity fades, the DOM) and the
rendering-supplied quantities (the ship's forward vector obtained from its
quaternion, the camera basis vectors, and the randomized spawn placement of
new asteroids and debris) are treated as inputs to the frame update, exactly
as the source reads them from the Three.js layer.  Calls to `Math.random()`
are modelled by an explicit oracle record whose entries carry the `[0, 1)`
bounds as hypotheses where a theorem needs them.
-/

namespace LD58

/-- 3-component vector over ℚ, standing in for `THREE.Vector3`. -/
structure Vec3 where
  x : ℚ
  y : ℚ
  z : ℚ
deriving Repr, DecidableEq

def Vec3.add (a b : Vec3) : Vec3 := ⟨a.x + b.x, a.y + b.y, a.z + b.z⟩

def Vec3.sub (a b : Vec3) : Vec3 := ⟨a.x - b.x, a.y - b.y, a.z - b.z⟩

def Vec3.smul (t : ℚ) (a : Vec3) : Vec3 := ⟨t * a.x, t * a.y, t * a.z⟩

def Vec3.dot (a b : Vec3) : ℚ := a.x * b.x + a.y * b.y + a.z * b.z

/-- Squared Euclidean distance between two points.  The source compares
`a.distanceTo(b) < r`; we embed this as `distSq a b < r * r`. -/
def distSq (a b : Vec3) : ℚ := (a.sub b).dot (a.sub b)

/-- `this.shipStats` of the `Game` constructor. -/
structure ShipStats where
  warp : ℚ
  warpMax : ℚ
  fuel : ℚ
  fuelMax : ℚ
  iron : ℚ
  cargoMax : ℚ
  distance : ℚ
deriving Repr, DecidableEq

/-- The constructor / `resetGame` ship stats. -/
def initialShipStats : ShipStats :=
  { warp := 2.2, warpMax := 6.5, fuel := 100, fuelMax := 100,
    iron := 0, cargoMax := 20, distance := 100 }

/-- One entry of `this.asteroids`.  `id` stands in for JS object identity,
which the source uses for `currentLaserTarget === asteroid` comparisons and
for `filter(a => a !== closestAsteroid)`.  The mesh itself (model variant,
scale, shadows) is rendering-only and omitted. -/
structure Asteroid where
  id : Nat
  position : Vec3
  velocity : Vec3
  rotation : Vec3
  rotationSpeed : Vec3
  isColliding : Bool
  health : ℚ
  maxHealth : ℚ
deriving Repr, DecidableEq

/-- One entry of `this.particles` (explosion debris).  Mesh geometry, colour
and the opacity fade are rendering-only and omitted. -/
structure Particle where
  position : Vec3
  velocity : Vec3
  lifetime : ℚ
  age : ℚ
  ironValue : ℚ
  collected : Bool
deriving Repr, DecidableEq

/-- One entry of `this.debrisParticles` (ambient stream). -/
structure Debris where
  position : Vec3
  velocity : Vec3
  lifetime : ℚ
  age : ℚ
deriving Repr, DecidableEq

/-- `this.tutorialShown`. -/
structure TutorialFlags where
  shieldHit : Bool
  asteroidDestroyed : Bool
  cargoFull : Bool
  controls : Bool
deriving Repr, DecidableEq

/-- `this.ownedUpgrades`. -/
structure OwnedUpgrades where
  ship : String
  weapon : String
  engine : String
  extractor : String
deriving Repr, DecidableEq

/-- A record of `weapons.json` as consumed by the core. -/
structure WeaponItem where
  id : String
  price : Int
  power : ℚ
  range : ℚ
deriving Repr, DecidableEq

/-- A record of `engines.json` as consumed by the core. -/
structure EngineItem where
  id : String
  price : Int
  fuelEfficiency : ℚ
  maxWarpSpeed : ℚ
deriving Repr, DecidableEq

/-- A record of `extractors.json` as consumed by the core. -/
structure ExtractorItem where
  id : String
  price : Int
  collectionMultiplier : ℚ
deriving Repr, DecidableEq

/-- The whole-game state: the fields of `Game` that the core simulation
reads or writes.  `shipPos` / `cameraPos` are `this.ship.position` and
`this.camera.position`. -/
structure GameState where
  shipStats : ShipStats
  credits : Int
  ownedUpgrades : OwnedUpgrades
  weaponsData : List WeaponItem
  enginesData : List EngineItem
  extractorsData : List ExtractorItem
  fuelConsumptionTimer : ℚ
  asteroidSpawnTimer : ℚ
  debrisSpawnTimer : ℚ
  passiveIronTimer : ℚ
  asteroids : List Asteroid
  particles : List Particle
  debrisParticles : List Debris
  currentLaserTarget : Option Nat
  isGameOver : Bool
  isRunning : Bool
  shipDebugMode : Bool
  tutorialShown : TutorialFlags
  dangerWarningShown : Bool
  shipPos : Vec3
  cameraPos : Vec3
  gameTime : ℚ
deriving Repr, DecidableEq

/-- Constants of the `Game` constructor. -/
def equilibriumWarp : ℚ := 2.2

def laserRange : ℚ := 30

def asteroidSpawnInterval : ℚ := 5

def debrisSpawnInterval : ℚ := 0.1

def passiveIronInterval : ℚ := 1

def ironPrice : ℚ := 50

def collectionRange : ℚ := 8

/-- `getWeaponMultiplier()`: power of the owned weapon, defaulting to 1.0. -/
def getWeaponMultiplier (weaponsData : List WeaponItem) (ownedWeapon : String) : ℚ :=
  match weaponsData.find? (fun w => w.id == ownedWeapon) with
  | some w => w.power
  | none => 1

/-- `getFuelReduction()`: `1 - engine.fuelEfficiency` of the owned engine,
defaulting to 0.0. -/
def getFuelReduction (enginesData : List EngineItem) (ownedEngine : String) : ℚ :=
  match enginesData.find? (fun e => e.id == ownedEngine) with
  | some e => 1 - e.fuelEfficiency
  | none => 0

/-- `getExtractorMultiplier()`: collection multiplier of the owned extractor,
defaulting to 1.0. -/
def getExtractorMultiplier (extractorsData : List ExtractorItem) (ownedExtractor : String) : ℚ :=
  match extractorsData.find? (fun e => e.id == ownedExtractor) with
  | some e => e.collectionMultiplier
  | none => 1

/-- The once-per-second economy step of `update()` (the body of the
`fuelConsumptionTimer >= 1.0` branch): fuel burn, distance drift against the
equilibrium warp, and the out-of-fuel deceleration. -/
def economyTick (fuelReduction : ℚ) (s : ShipStats) : ShipStats :=
  let baseFuelConsumption := s.warp / 10
  let fuelConsumption := baseFuelConsumption * (1 - fuelReduction)
  let fuel2 := max 0 (s.fuel - fuelConsumption)
  let warpDifference := s.warp - equilibriumWarp
  let distance2 := max 0 (s.distance + warpDifference)
  let warp2 := if fuel2 ≤ 0 then max 0 (s.warp - 0.2) else s.warp
  { s with fuel := fuel2, distance := distance2, warp := warp2 }

/-- `gameOver()` as far as simulation state goes: latch the game-over flag
and `stop()` the loop. -/
def gameOverSet (g : GameState) : GameState :=
  { g with isGameOver := true, isRunning := false }

/-- `openTradingStation()`'s simulation effect: `stop()` the loop, sell the
iron cargo at `ironPrice` (floored to whole credits), zero the cargo. -/
def openTradingStation (g : GameState) : GameState :=
  let g := { g with isRunning := false }
  let ironSold := g.shipStats.iron
  let cargoValue : Int := (ironSold * ironPrice).floor
  { g with credits := g.credits + cargoValue,
           shipStats := { g.shipStats with iron := 0 } }

/-- The `Space` key handler installed by `setupInput()`: hyperjump only when
the loop is running, the ship is under manual control, and the game is not
over. -/
def onSpaceKey (g : GameState) : GameState :=
  if g.isRunning = true ∧ g.shipDebugMode = true ∧ g.isGameOver = false then
    openTradingStation g
  else g

/-- `closeTradingStation()`'s simulation effect: refuel, reset distance and
warp, zero the fuel/debris/passive timers, clear the tutorial and danger
latches, and `start()` the loop again.  (It does not touch the asteroid,
particle or debris pools, nor the asteroid spawn timer.) -/
def closeTradingStation (g : GameState) : GameState :=
  { g with
    shipStats := { g.shipStats with
                   fuel := g.shipStats.fuelMax, distance := 100, warp := 2.2 },
    fuelConsumptionTimer := 0,
    debrisSpawnTimer := 0,
    passiveIronTimer := 0,
    tutorialShown := { shieldHit := false, asteroidDestroyed := false,
                       cargoFull := false, controls := false },
    dangerWarningShown := false,
    isRunning := true }

/-- `resetGame()`: clear the game-over flag, restore the constructor ship
stats, zero the fuel and asteroid-spawn timers, flush all three entity pools,
clear targeting, reset camera and ship placement, and disable manual
control.  `waypoint0` is the first cinematic waypoint the ship is moved back
to. -/
def resetGame (waypoint0 : Vec3) (g : GameState) : GameState :=
  { g with
    isGameOver := false,
    shipStats := initialShipStats,
    fuelConsumptionTimer := 0,
    asteroidSpawnTimer := 0,
    asteroids := [],
    particles := [],
    debrisParticles := [],
    currentLaserTarget := none,
    cameraPos := ⟨0, 8, 15⟩,
    shipPos := waypoint0,
    shipDebugMode := false }

/-- The four upgrade-shop categories of `populateStationUpgrades()` /
`purchaseUpgrade()`. -/
inductive Category where
  | ships
  | weapons
  | propulsion
  | extractors
deriving Repr, DecidableEq

/-- `item.stats` of a ship catalog entry. -/
structure ShipStatsSpec where
  warpMax : ℚ
  fuelMax : ℚ
  cargoMax : ℚ
deriving Repr, DecidableEq

/-- A catalog item as passed to `purchaseUpgrade(category, item)`.  `stats`
is present only on ship entries; `maxWarpSpeed = 0` encodes a missing/falsy
`item.maxWarpSpeed`. -/
structure UpgradeItem where
  id : String
  price : Int
  stats : Option ShipStatsSpec
  maxWarpSpeed : ℚ
deriving Repr, DecidableEq

/-- The `categoryToKey` table combined with the `ownedUpgrades` write. -/
def setOwned (o : OwnedUpgrades) (c : Category) (itemId : String) : OwnedUpgrades :=
  match c with
  | .ships => { o with ship := itemId }
  | .weapons => { o with weapon := itemId }
  | .propulsion => { o with engine := itemId }
  | .extractors => { o with extractor := itemId }

/-- `purchaseUpgrade(category, item)`: reject if unaffordable, else deduct
the price, record ownership, and apply stat overrides (ship stats refill the
fuel; a truthy `maxWarpSpeed` on a propulsion item raises `warpMax`). -/
def purchaseUpgrade (g : GameState) (category : Category) (item : UpgradeItem) : GameState :=
  if g.credits < item.price then g
  else
    let g := { g with credits := g.credits - item.price,
                      ownedUpgrades := setOwned g.ownedUpgrades category item.id }
    match category, item.stats with
    | .ships, some st =>
      { g with shipStats := { g.shipStats with
                              warpMax := st.warpMax, fuelMax := st.fuelMax,
                              cargoMax := st.cargoMax, fuel := st.fuelMax } }
    | .propulsion, _ =>
      if item.maxWarpSpeed ≠ 0 then
        { g with shipStats := { g.shipStats with warpMax := item.maxWarpSpeed } }
      else g
    | _, _ => g

/-- Explicit oracle for the `Math.random()` draws of one frame.  `countR`
and `yieldR` feed `createParticleExplosion`, `spread i` is the velocity
jitter of the `i`-th explosion particle, `pushDir i` / `pushR i` drive the
collision push of the `i`-th asteroid processed this frame, and `passiveR`
feeds the passive iron trickle. -/
structure Rng where
  countR : ℚ
  yieldR : ℚ
  spread : Nat → Vec3
  pushDir : Nat → Nat
  pushR : Nat → ℚ
  passiveR : ℚ

/-- Per-frame inputs that the source reads from the rendering/input layer:
the elapsed time, the random draws, the ship's forward vector (from its
quaternion), the camera basis, the polled key states, HUD visibility, and the
randomized spawn results (an asteroid every 5 s, six debris particles every
0.1 s), whose placement is computed from camera geometry in the source. -/
structure FrameInput where
  dt : ℚ
  rng : Rng
  shipForward : Vec3
  camForward : Vec3
  camRight : Vec3
  keyW : Bool
  keyA : Bool
  keyS : Bool
  keyD : Bool
  arrowUp : Bool
  arrowDown : Bool
  hudVisible : Bool
  spawnedAsteroid : Option Asteroid
  spawnedDebris : Nat → Option Debris

/-- The arrow-key warp adjustment of `updateShipDebugControls()`:
`ArrowUp` raises warp by 0.1 clamped to `warpMax`, then `ArrowDown` lowers
it by 0.1 clamped to 0 (both keys are polled independently). -/
def adjustWarpKeys (up down : Bool) (warp warpMax : ℚ) : ℚ :=
  let warp1 := if up then min (warp + 0.1) warpMax else warp
  if down then max (warp1 - 0.1) 0 else warp1

/-- `updateShipDebugControls()`: WASD screen-space movement of ship and
camera, and the arrow-key warp adjustment clamped to `[0, warpMax]`.  (The
cosmetic pitch/roll interpolation of the ship mesh is omitted.) -/
def updateShipDebugControls (inp : FrameInput) (g : GameState) : GameState :=
  let moveSpeed := 10 * inp.dt
  let cameraUp : Vec3 := ⟨0, 1, 0⟩
  let movement : Vec3 := ⟨0, 0, 0⟩
  let movement := if inp.keyW then movement.add (cameraUp.smul moveSpeed) else movement
  let movement := if inp.keyS then movement.add (cameraUp.smul (-moveSpeed)) else movement
  let movement := if inp.keyA then movement.add (inp.camRight.smul moveSpeed) else movement
  let movement := if inp.keyD then movement.add (inp.camRight.smul (-moveSpeed)) else movement
  let warp2 := adjustWarpKeys inp.arrowUp inp.arrowDown g.shipStats.warp g.shipStats.warpMax
  { g with shipStats := { g.shipStats with warp := warp2 },
           shipPos := g.shipPos.add movement,
           cameraPos := g.cameraPos.add movement }

/-- The fuel-consumption and asteroid-spawn accumulators of `update()` (both
run only under manual control). -/
def economyAndSpawnBlock (inp : FrameInput) (g : GameState) : GameState :=
  let g :=
    let t := g.fuelConsumptionTimer + inp.dt
    if t ≥ 1 then
      { g with shipStats := economyTick
                 (getFuelReduction g.enginesData g.ownedUpgrades.engine) g.shipStats,
               fuelConsumptionTimer := 0 }
    else { g with fuelConsumptionTimer := t }
  let t2 := g.asteroidSpawnTimer + inp.dt
  if t2 ≥ asteroidSpawnInterval then
    { g with asteroids := g.asteroids ++ inp.spawnedAsteroid.toList,
             asteroidSpawnTimer := 0 }
  else { g with asteroidSpawnTimer := t2 }

/-- `createParticleExplosion`'s particle count: `160 + floor(random * 120)`. -/
def explosionCount (r : ℚ) : Nat := 160 + (Int.floor (r * 120)).toNat

/-- `createParticleExplosion`'s total yield: `0.5 + random * 1.5` tons. -/
def explosionYield (r : ℚ) : ℚ := 0.5 + r * 1.5

/-- `createParticleExplosion(position, velocity)`: push `160..280` particles,
each carrying an equal share of the randomized iron yield and a jittered copy
of the destroyed asteroid's velocity. -/
def createParticleExplosion (rng : Rng) (position velocity : Vec3)
    (particles : List Particle) : List Particle :=
  let particleCount := explosionCount rng.countR
  let ironPerParticle := explosionYield rng.yieldR / particleCount
  particles ++ (List.range particleCount).map (fun i =>
    { position := position,
      velocity := velocity.add (rng.spread i),
      lifetime := 10,
      age := 0,
      ironValue := ironPerParticle,
      collected := false })

/-- One iteration of the targeting scan at the head of `updateAsteroids()`:
keep the closer of the tracked candidate and the next asteroid, subject to
`health > 0` and the positive-dot-product front test.  (The source compares
plain distances; we compare their squares.) -/
def scanStep (shipPos shipForward : Vec3) (acc : Option Asteroid × ℚ)
    (asteroid : Asteroid) : Option Asteroid × ℚ :=
  let dSq := distSq asteroid.position shipPos
  let dotProduct := shipForward.dot (asteroid.position.sub shipPos)
  if dSq < acc.2 ∧ 0 < asteroid.health ∧ 0 < dotProduct then
    (some asteroid, dSq)
  else acc

/-- The targeting scan: fold over the asteroid pool tracking the closest
eligible candidate, starting from the laser range as the distance bound. -/
def scanTarget (shipPos shipForward : Vec3) (asteroids : List Asteroid) :
    Option Asteroid × ℚ :=
  asteroids.foldl (scanStep shipPos shipForward) (none, laserRange * laserRange)

/-- The laser-damage / destruction phase of `updateAsteroids()`: lock the
scanned target, apply `dt * weaponMultiplier` damage, and on destruction
spawn the explosion, drop the asteroid, clear the target and latch the
tutorial flag. -/
def laserPhase (rng : Rng) (dt weaponMultiplier : ℚ) (shipPos shipForward : Vec3)
    (g : GameState) : GameState :=
  match (scanTarget shipPos shipForward g.asteroids).1 with
  | some tgt =>
    let newHealth := tgt.health - dt * weaponMultiplier
    if newHealth ≤ 0 then
      { g with particles := createParticleExplosion rng tgt.position tgt.velocity g.particles,
               asteroids := g.asteroids.filter (fun a => a.id ≠ tgt.id),
               currentLaserTarget := none,
               tutorialShown := { g.tutorialShown with asteroidDestroyed := true } }
    else
      { g with currentLaserTarget := some tgt.id,
               asteroids := g.asteroids.map (fun a =>
                 if a.id = tgt.id then { a with health := newHealth } else a) }
  | none => { g with currentLaserTarget := none }

/-- The culling filter of `updateAsteroids()`: drop asteroids more than 150
units from the ship. -/
def cullFarAsteroids (shipPos : Vec3) (asteroids : List Asteroid) : List Asteroid :=
  asteroids.filter (fun a =>
    if 150 * 150 < distSq a.position shipPos then false else true)

/-- The push applied on a ship collision: 3–6 units along one of the four
cardinal directions (`directions[floor(random * 4)]`). -/
def cardinalPush (k : Nat) (d : ℚ) : Vec3 :=
  if k = 0 then ⟨d, 0, 0⟩
  else if k = 1 then ⟨-d, 0, 0⟩
  else if k = 2 then ⟨0, d, 0⟩
  else ⟨0, -d, 0⟩

/-- The kinematic part of the per-asteroid `forEach` of `updateAsteroids()`:
tumble and integrate position. -/
def integrateAsteroid (dt : ℚ) (a : Asteroid) : Asteroid :=
  { a with rotation := a.rotation.add (a.rotationSpeed.smul dt),
           position := a.position.add (a.velocity.smul dt) }

/-- The ship-collision check of the per-asteroid `forEach`: within 5 units
and not yet latched, subtract the current warp from the distance (clamped at
0), latch `isColliding`, latch the shield tutorial flag, clear targeting if
this asteroid was the target, halve its velocity, and push it 3–6 units along
a random cardinal direction. -/
def collideAsteroidShip (pushDirK : Nat) (pushR : ℚ) (stats : ShipStats)
    (shipPos : Vec3) (target : Option Nat) (shieldHit : Bool) (a : Asteroid) :
    ShipStats × Option Nat × Bool × Asteroid :=
  if distSq a.position shipPos < 5 * 5 ∧ a.isColliding = false then
    let damage := stats.warp
    let stats := { stats with distance := max 0 (stats.distance - damage) }
    let a := { a with isColliding := true }
    let shieldHit := true
    let target := if target = some a.id then none else target
    let a := { a with velocity := a.velocity.smul 0.5 }
    let pushDistance := 3 + pushR * 3
    let a := { a with position := a.position.add (cardinalPush pushDirK pushDistance) }
    (stats, target, shieldHit, a)
  else (stats, target, shieldHit, a)

/-- One iteration of the movement/collision `forEach` (`i` indexes the
random draws of this frame). -/
def moveCollideOne (rng : Rng) (dt : ℚ) (shipPos : Vec3) (i : Nat)
    (stats : ShipStats) (target : Option Nat) (shieldHit : Bool) (a : Asteroid) :
    ShipStats × Option Nat × Bool × Asteroid :=
  collideAsteroidShip (rng.pushDir i) (rng.pushR i) stats shipPos target shieldHit
    (integrateAsteroid dt a)

/-- The movement/collision `forEach` over the whole pool, threading the ship
stats, the laser target and the shield tutorial latch through the scan. -/
def moveAndCollide (rng : Rng) (dt : ℚ) (shipPos : Vec3) (g : GameState) : GameState :=
  let out := g.asteroids.foldl
    (fun (acc : ShipStats × Option Nat × Bool × List Asteroid × Nat) a =>
      let r := moveCollideOne rng dt shipPos acc.2.2.2.2 acc.1 acc.2.1 acc.2.2.1 a
      (r.1, r.2.1, r.2.2.1, acc.2.2.2.1 ++ [r.2.2.2], acc.2.2.2.2 + 1))
    (g.shipStats, g.currentLaserTarget, g.tutorialShown.shieldHit, [], 0)
  { g with shipStats := out.1,
           currentLaserTarget := out.2.1,
           tutorialShown := { g.tutorialShown with shieldHit := out.2.2.1 },
           asteroids := out.2.2.2.1 }

/-- `updateAsteroids(deltaTime)`: targeting and laser damage, far culling,
then movement and ship-collision handling. -/
def updateAsteroidsStep (inp : FrameInput) (g : GameState) : GameState :=
  let weaponMultiplier := getWeaponMultiplier g.weaponsData g.ownedUpgrades.weapon
  let g := laserPhase inp.rng inp.dt weaponMultiplier g.shipPos inp.shipForward g
  let g := { g with asteroids := cullFarAsteroids g.shipPos g.asteroids }
  moveAndCollide inp.rng inp.dt g.shipPos g

/-- The body of `updateParticles(deltaTime)`'s filter, threading the iron
cargo through the sequential scan: age and expire, move, and collect within
8 units (clamping cargo at `cargoMax`). -/
def updateParticlesGo (dt extractorMultiplier cargoMax : ℚ) (shipPos : Vec3) :
    List Particle → ℚ → ℚ × List Particle
  | [], iron => (iron, [])
  | p :: rest, iron =>
    let p := { p with age := p.age + dt }
    if p.lifetime ≤ p.age then
      updateParticlesGo dt extractorMultiplier cargoMax shipPos rest iron
    else
      let p := { p with position := p.position.add (p.velocity.smul dt) }
      if p.collected = false ∧ distSq p.position shipPos < collectionRange * collectionRange then
        let ironCollected := p.ironValue * extractorMultiplier
        updateParticlesGo dt extractorMultiplier cargoMax shipPos rest
          (min cargoMax (iron + ironCollected))
      else
        let res := updateParticlesGo dt extractorMultiplier cargoMax shipPos rest iron
        (res.1, p :: res.2)

/-- `updateParticles(deltaTime)` as a state update. -/
def updateParticlesStep (inp : FrameInput) (g : GameState) : GameState :=
  let extractorMultiplier := getExtractorMultiplier g.extractorsData g.ownedUpgrades.extractor
  let res := updateParticlesGo inp.dt extractorMultiplier g.shipStats.cargoMax g.shipPos
    g.particles g.shipStats.iron
  { g with shipStats := { g.shipStats with iron := res.1 }, particles := res.2 }

/-- The body of `updateDebrisParticles(deltaTime)`'s filter: age, expire when
old or within 5 units of the camera, recompute the stream velocity from the
current warp, and move. -/
def updateDebrisGo (dt warp : ℚ) (camPos directionToCamera : Vec3) :
    List Debris → List Debris
  | [] => []
  | d :: rest =>
    let d := { d with age := d.age + dt }
    if d.lifetime ≤ d.age ∨ distSq d.position camPos < 5 * 5 then
      updateDebrisGo dt warp camPos directionToCamera rest
    else
      let velocity := directionToCamera.smul (15 + warp * 3)
      let d := { d with velocity := velocity,
                        position := d.position.add (velocity.smul dt) }
      d :: updateDebrisGo dt warp camPos directionToCamera rest

/-- The passive iron trickle collected once per second while flying through
the debris stream: `0.05..0.15` tons scaled by the extractor multiplier. -/
def passiveIronCollect (r extractorMultiplier : ℚ) (s : ShipStats) : ShipStats :=
  let passiveIronAmount := 0.05 + r * 0.1
  let ironCollected := passiveIronAmount * extractorMultiplier
  { s with iron := min s.cargoMax (s.iron + ironCollected) }

/-- The debris-spawn, debris-update and passive-iron block of `update()`
(manual control only). -/
def debrisAndPassiveBlock (inp : FrameInput) (g : GameState) : GameState :=
  let g :=
    let t := g.debrisSpawnTimer + inp.dt
    if t ≥ debrisSpawnInterval then
      { g with debrisParticles := g.debrisParticles ++ (List.range 6).filterMap inp.spawnedDebris,
               debrisSpawnTimer := 0 }
    else { g with debrisSpawnTimer := t }
  let newDebris := updateDebrisGo inp.dt g.shipStats.warp g.cameraPos
    (inp.camForward.smul (-1)) g.debrisParticles
  let g := { g with debrisParticles := newDebris }
  let t := g.passiveIronTimer + inp.dt
  if t ≥ passiveIronInterval then
    { g with shipStats := passiveIronCollect inp.rng.passiveR
               (getExtractorMultiplier g.extractorsData g.ownedUpgrades.extractor) g.shipStats,
             passiveIronTimer := 0 }
  else { g with passiveIronTimer := t }

/-- The cargo-full tutorial latch of `update()`'s HUD block. -/
def hudCargoFullCheck (inp : FrameInput) (g : GameState) : GameState :=
  if inp.hudVisible = true ∧ g.shipStats.cargoMax ≤ g.shipStats.iron ∧
      g.tutorialShown.cargoFull = false then
    { g with tutorialShown := { g.tutorialShown with cargoFull := true } }
  else g

/-- The danger-warning latch of `update()` (manual control only). -/
def dangerWarningBlock (g : GameState) : GameState :=
  if g.shipStats.distance < 40 ∧ g.dangerWarningShown = false then
    { g with dangerWarningShown := true }
  else if 40 ≤ g.shipStats.distance ∧ g.dangerWarningShown = true then
    { g with dangerWarningShown := false }
  else g

/-- The post-check body of `update(deltaTime)` in source order: clock, ship
controls, economy and spawn accumulators, asteroid update (skipped once game
over), particle update, debris/passive block, HUD latch, danger latch. -/
def updateBody (inp : FrameInput) (g : GameState) : GameState :=
  let g1 := { g with gameTime := g.gameTime + inp.dt }
  let g2 := if g1.shipDebugMode then updateShipDebugControls inp g1 else g1
  let g3 := if g2.shipDebugMode then economyAndSpawnBlock inp g2 else g2
  let g4 := if g3.isGameOver = false then updateAsteroidsStep inp g3 else g3
  let g5 := updateParticlesStep inp g4
  let g6 := if g5.shipDebugMode then debrisAndPassiveBlock inp g5 else g5
  let g7 := hudCargoFullCheck inp g6
  if g7.shipDebugMode then dangerWarningBlock g7 else g7

/-- `update(deltaTime)`: the per-frame pass — the `checkGameOverConditions`
terminal check runs first and, when it fires, latches game over, stops the
loop and returns without advancing anything else. -/
def update (inp : FrameInput) (g : GameState) : GameState :=
  if g.shipStats.distance ≤ 0 ∧ g.isGameOver = false then
    gameOverSet g
  else
    updateBody inp g

/-- `loop()`: a frame advances the state only while `isRunning`. -/
def loopStep (inp : FrameInput) (g : GameState) : GameState :=
  if g.isRunning = false then g else update inp g

/-- Clearing the game-over flag, the extra step the spec pairs with
`closeTradingStation` when describing a full mission reset. -/
def clearGameOverFlag (g : GameState) : GameState :=
  { g with isGameOver := false }

/-! ### Concrete demonstration states used by counterexamples and witnesses -/

/-- A live asteroid sitting 6 units ahead of the origin. -/
def aDemo : Asteroid :=
  { id := 1, position := ⟨0, 0, 6⟩, velocity := ⟨0, 0, 0⟩, rotation := ⟨0, 0, 0⟩,
    rotationSpeed := ⟨0, 0, 0⟩, isColliding := false, health := 3, maxHealth := 3 }

/-- A live explosion particle far from the ship. -/
def pDemo : Particle :=
  { position := ⟨0, 0, 50⟩, velocity := ⟨0, 0, 0⟩, lifetime := 10, age := 0,
    ironValue := 1/100, collected := false }

/-- A mid-mission state: manual control, one live asteroid, one live
particle, the shield-hit tutorial latch already fired. -/
def gBase : GameState :=
  { shipStats := initialShipStats,
    credits := 0,
    ownedUpgrades := { ship := "base_ship", weapon := "laser_mk1",
                       engine := "standard_drive", extractor := "basic_collector" },
    weaponsData := [], enginesData := [], extractorsData := [],
    fuelConsumptionTimer := 0, asteroidSpawnTimer := 0,
    debrisSpawnTimer := 0, passiveIronTimer := 0,
    asteroids := [aDemo], particles := [pDemo], debrisParticles := [],
    currentLaserTarget := none,
    isGameOver := false, isRunning := true, shipDebugMode := true,
    tutorialShown := { shieldHit := true, asteroidDestroyed := false,
                       cargoFull := false, controls := false },
    dangerWarningShown := false,
    shipPos := ⟨0, 0, 0⟩, cameraPos := ⟨0, 8, 15⟩, gameTime := 0 }

/-! ### C1 -/

/-- C1 (counterexample): the `AtStation → Mining` transition does NOT flush
the entity pools — starting from `gBase`, which holds one live asteroid and
one live particle, both survive `closeTradingStation` unchanged. -/
theorem closeTradingStation_keeps_pools :
    (closeTradingStation gBase).asteroids = [aDemo] ∧
    (closeTradingStation gBase).particles = [pDemo] ∧
    [aDemo] ≠ ([] : List Asteroid) ∧ [pDemo] ≠ ([] : List Particle) := by
  refine ⟨rfl, rfl, ?_, ?_⟩ <;> decide

/-- C1 (amended): `closeTradingStation` resets `fuel = fuelMax`,
`distance = 100`, `warp = 2.2`, zeroes the fuel/debris/passive timers,
clears every tutorial/danger latch, and restarts the loop — but it leaves
the asteroid, particle and debris pools and the asteroid spawn timer exactly
as they were. -/
theorem closeTradingStation_spec (g : GameState) :
    (closeTradingStation g).shipStats.fuel = g.shipStats.fuelMax ∧
    (closeTradingStation g).shipStats.distance = 100 ∧
    (closeTradingStation g).shipStats.warp = 2.2 ∧
    (closeTradingStation g).fuelConsumptionTimer = 0 ∧
    (closeTradingStation g).debrisSpawnTimer = 0 ∧
    (closeTradingStation g).passiveIronTimer = 0 ∧
    (closeTradingStation g).tutorialShown =
      { shieldHit := false, asteroidDestroyed := false,
        cargoFull := false, controls := false } ∧
    (closeTradingStation g).dangerWarningShown = false ∧
    (closeTradingStation g).isRunning = true ∧
    (closeTradingStation g).asteroids = g.asteroids ∧
    (closeTradingStation g).particles = g.particles ∧
    (closeTradingStation g).debrisParticles = g.debrisParticles ∧
    (closeTradingStation g).asteroidSpawnTimer = g.asteroidSpawnTimer :=
  ⟨rfl, rfl, rfl, rfl, rfl, rfl, rfl, rfl, rfl, rfl, rfl, rfl, rfl⟩

/-! ### C2 -/

/-- C2: one economy tick computes
`fuelConsumption = (warp / 10) * (1 - fuelReduction)`, clamps
`fuel = max 0 (fuel - fuelConsumption)` and
`distance = max 0 (distance + (warp - 2.2))`, and decelerates
`warp = max 0 (warp - 0.2)` exactly when the updated fuel is ≤ 0. -/
theorem economyTick_spec (red : ℚ) (s : ShipStats) :
    (economyTick red s).fuel = max 0 (s.fuel - s.warp / 10 * (1 - red)) ∧
    (economyTick red s).distance = max 0 (s.distance + (s.warp - 2.2)) ∧
    (economyTick red s).warp =
      (if max 0 (s.fuel - s.warp / 10 * (1 - red)) ≤ 0
       then max 0 (s.warp - 0.2) else s.warp) ∧
    (economyTick red s).iron = s.iron ∧
    (economyTick red s).fuelMax = s.fuelMax ∧
    (economyTick red s).warpMax = s.warpMax ∧
    (economyTick red s).cargoMax = s.cargoMax :=
  ⟨rfl, rfl, rfl, rfl, rfl, rfl, rfl⟩

/-! ### C7 -/

/-- C7: purchasing with insufficient credits is a strict no-op; otherwise
the price is deducted, the item recorded as owned for its category, ship
stat overrides (with a fuel refill) or a propulsion `warpMax` override are
applied immediately, and weapon/extractor purchases leave the ship stats
unchanged. -/
theorem purchaseUpgrade_spec (g : GameState) (c : Category) (item : UpgradeItem) :
    (g.credits < item.price → purchaseUpgrade g c item = g) ∧
    (item.price ≤ g.credits →
      (purchaseUpgrade g c item).credits = g.credits - item.price ∧
      (purchaseUpgrade g c item).ownedUpgrades = setOwned g.ownedUpgrades c item.id ∧
      (∀ st, c = Category.ships → item.stats = some st →
        (purchaseUpgrade g c item).shipStats =
          { g.shipStats with warpMax := st.warpMax, fuelMax := st.fuelMax,
                             cargoMax := st.cargoMax, fuel := st.fuelMax }) ∧
      (c = Category.propulsion → item.maxWarpSpeed ≠ 0 →
        (purchaseUpgrade g c item).shipStats =
          { g.shipStats with warpMax := item.maxWarpSpeed }) ∧
      ((c = Category.weapons ∨ c = Category.extractors) →
        (purchaseUpgrade g c item).shipStats = g.shipStats)) := by
  constructor
  · intro h
    simp [purchaseUpgrade, h]
  · intro h
    have hlt : ¬ g.credits < item.price := not_lt.mpr h
    refine ⟨?_, ?_, ?_, ?_, ?_⟩
    · cases c <;> rcases hst : item.stats with _ | st <;>
        simp [purchaseUpgrade, hlt, hst] <;> split <;> rfl
    · cases c <;> rcases hst : item.stats with _ | st <;>
        simp [purchaseUpgrade, hlt, hst] <;> split <;> rfl
    · rintro st rfl hst
      simp [purchaseUpgrade, hlt, hst]
    · rintro rfl hw
      rcases hst : item.stats with _ | st <;> simp [purchaseUpgrade, hlt, hst, hw]
    · rintro (rfl | rfl) <;> rcases hst : item.stats with _ | st <;>
        simp [purchaseUpgrade, hlt, hst]

/-- A ship catalog entry and two purchase scenarios used as C7 witnesses. -/
def shipItemDemo : UpgradeItem :=
  { id := "hauler", price := 5000,
    stats := some { warpMax := 7.5, fuelMax := 150, cargoMax := 40 },
    maxWarpSpeed := 0 }

def gRich : GameState := { gBase with credits := 6000 }

/-- C7 (witness): with 0 credits a 5000-credit ship purchase is a no-op;
with 6000 credits it deducts the price and applies the ship stat overrides
including the fuel refill. -/
theorem purchaseUpgrade_spec_witness :
    purchaseUpgrade gBase Category.ships shipItemDemo = gBase ∧
    (purchaseUpgrade gRich Category.ships shipItemDemo).credits = 1000 ∧
    (purchaseUpgrade gRich Category.ships shipItemDemo).shipStats.fuel = 150 := by
  refine ⟨(purchaseUpgrade_spec gBase Category.ships shipItemDemo).1 (by decide), ?_, ?_⟩
  · have h := ((purchaseUpgrade_spec gRich Category.ships shipItemDemo).2 (by decide)).1
    rw [h]; decide
  · have h := ((purchaseUpgrade_spec gRich Category.ships shipItemDemo).2 (by decide)).2.2.1
      { warpMax := 7.5, fuelMax := 150, cargoMax := 40 } rfl rfl
    rw [h]

/-! ### C9 -/

/-- C9 (counterexample): the full mission reset is NOT equivalent to
`closeTradingStation` plus clearing the game-over flag — from `gBase`,
`resetGame` flushes the asteroid pool and keeps the fired shield-hit
tutorial latch, while `closeTradingStation` keeps the asteroid and clears
the latch. -/
theorem resetGame_ne_closeTradingStation :
    (resetGame ⟨0, 5, 25⟩ gBase).asteroids ≠
      (clearGameOverFlag (closeTradingStation gBase)).asteroids ∧
    (resetGame ⟨0, 5, 25⟩ gBase).tutorialShown ≠
      (clearGameOverFlag (closeTradingStation gBase)).tutorialShown := by
  constructor <;> decide

/-- C9 (amended): `resetGame` clears the game-over flag, restores the
constructor ship stats, zeroes the fuel and asteroid-spawn timers, flushes
all three entity pools, clears targeting and disables manual control, while
leaving credits, owned upgrades, the debris/passive timers and the
tutorial/danger latches untouched — so it differs from
`closeTradingStation` plus `clearGameOverFlag` (which keeps the pools,
clears the latches and zeroes the debris/passive timers instead). -/
theorem resetGame_spec (w : Vec3) (g : GameState) :
    (resetGame w g).isGameOver = false ∧
    (resetGame w g).shipStats = initialShipStats ∧
    (resetGame w g).fuelConsumptionTimer = 0 ∧
    (resetGame w g).asteroidSpawnTimer = 0 ∧
    (resetGame w g).asteroids = [] ∧
    (resetGame w g).particles = [] ∧
    (resetGame w g).debrisParticles = [] ∧
    (resetGame w g).currentLaserTarget = none ∧
    (resetGame w g).shipDebugMode = false ∧
    (resetGame w g).credits = g.credits ∧
    (resetGame w g).ownedUpgrades = g.ownedUpgrades ∧
    (resetGame w g).debrisSpawnTimer = g.debrisSpawnTimer ∧
    (resetGame w g).passiveIronTimer = g.passiveIronTimer ∧
    (resetGame w g).tutorialShown = g.tutorialShown ∧
    (resetGame w g).dangerWarningShown = g.dangerWarningShown ∧
    (resetGame w g).isRunning = g.isRunning :=
  ⟨rfl, rfl, rfl, rfl, rfl, rfl, rfl, rfl, rfl, rfl, rfl, rfl, rfl, rfl, rfl, rfl⟩

/-! ### C10 -/

/-- C10: the Space-key hyperjump fires only when the loop is running, the
ship is under manual control, and the game is not over; in every other
situation the handler leaves the state untouched (so no cargo sale and no
pause during the cinematic or after game over). -/
theorem onSpaceKey_guard (g : GameState) :
    (g.isRunning = true → g.shipDebugMode = true → g.isGameOver = false →
      onSpaceKey g = openTradingStation g) ∧
    (g.shipDebugMode = false → onSpaceKey g = g) ∧
    (g.isGameOver = true → onSpaceKey g = g) ∧
    (g.isRunning = false → onSpaceKey g = g) := by
  refine ⟨?_, ?_, ?_, ?_⟩
  · intro h1 h2 h3
    simp [onSpaceKey, h1, h2, h3]
  · intro h
    simp [onSpaceKey, h]
  · intro h
    simp [onSpaceKey, h]
  · intro h
    simp [onSpaceKey, h]

/-- C10 (witness): during the cinematic (`shipDebugMode = false`) and after
game over the Space key is inert, while from the running manual-control
state `gBase` it opens the trading station. -/
theorem onSpaceKey_guard_witness :
    onSpaceKey { gBase with shipDebugMode := false } = { gBase with shipDebugMode := false } ∧
    onSpaceKey { gBase with isGameOver := true } = { gBase with isGameOver := true } ∧
    onSpaceKey gBase = openTradingStation gBase :=
  ⟨(onSpaceKey_guard _).2.1 rfl, (onSpaceKey_guard _).2.2.1 rfl,
   (onSpaceKey_guard gBase).1 rfl rfl rfl⟩

/-! ### C4 -/

/-- The numeric invariants of §8 of the spec on the ship stats. -/
abbrev ShipInv (s : ShipStats) : Prop :=
  0 ≤ s.fuel ∧ s.fuel ≤ s.fuelMax ∧ 0 ≤ s.iron ∧ s.iron ≤ s.cargoMax ∧
  0 ≤ s.distance ∧ 0 ≤ s.warp ∧ s.warp ≤ s.warpMax

lemma economyTick_shipInv (red : ℚ) (s : ShipStats) (h : ShipInv s)
    (hred0 : 0 ≤ red) (hred1 : red ≤ 1) : ShipInv (economyTick red s) := by
  obtain ⟨hf0, hf1, hi0, hi1, hd0, hw0, hw1⟩ := h
  have hc : 0 ≤ s.warp / 10 * (1 - red) :=
    mul_nonneg (div_nonneg hw0 (by norm_num)) (by linarith)
  refine ⟨le_max_left _ _, ?_, hi0, hi1, le_max_left _ _, ?_, ?_⟩
  · exact max_le (hf0.trans hf1) (by simpa using (sub_le_self s.fuel hc).trans hf1)
  · simp only [economyTick]
    split
    · exact le_max_left _ _
    · exact hw0
  · simp only [economyTick]
    split
    · exact max_le (hw0.trans hw1) ((sub_le_self s.warp (by norm_num)).trans hw1)
    · exact hw1

lemma updateParticlesGo_iron_bounds (dt mult cargoMax : ℚ) (shipPos : Vec3)
    (ps : List Particle) (iron : ℚ)
    (h0 : 0 ≤ iron) (h1 : iron ≤ cargoMax) (hm : 0 ≤ mult)
    (hps : ∀ p ∈ ps, 0 ≤ p.ironValue) :
    0 ≤ (updateParticlesGo dt mult cargoMax shipPos ps iron).1 ∧
      (updateParticlesGo dt mult cargoMax shipPos ps iron).1 ≤ cargoMax := by
  induction ps generalizing iron with
  | nil => simpa [updateParticlesGo] using ⟨h0, h1⟩
  | cons p rest ih =>
    have hp : 0 ≤ p.ironValue := hps p (List.mem_cons_self _ _)
    have hrest : ∀ q ∈ rest, 0 ≤ q.ironValue :=
      fun q hq => hps q (List.mem_cons_of_mem _ hq)
    rw [updateParticlesGo]
    split
    · exact ih iron h0 h1 hrest
    · dsimp only
      split
      · refine ih _ ?_ (min_le_left _ _) hrest
        exact le_min (h0.trans h1) (add_nonneg h0 (mul_nonneg hp hm))
      · simpa using ih iron h0 h1 hrest

lemma passiveIronCollect_shipInv (r mult : ℚ) (s : ShipStats) (h : ShipInv s)
    (hr : 0 ≤ r) (hm : 0 ≤ mult) : ShipInv (passiveIronCollect r mult s) := by
  obtain ⟨hf0, hf1, hi0, hi1, hd0, hw0, hw1⟩ := h
  refine ⟨hf0, hf1, ?_, ?_, hd0, hw0, hw1⟩
  · exact le_min (hi0.trans hi1)
      (add_nonneg hi0 (mul_nonneg (by linarith) hm))
  · exact min_le_left _ _

lemma adjustWarpKeys_bounds (up down : Bool) (warp warpMax : ℚ)
    (h0 : 0 ≤ warp) (h1 : warp ≤ warpMax) :
    0 ≤ adjustWarpKeys up down warp warpMax ∧
      adjustWarpKeys up down warp warpMax ≤ warpMax := by
  simp only [adjustWarpKeys]
  have hup0 : 0 ≤ (if up then min (warp + 0.1) warpMax else warp) := by
    split
    · exact le_min (by linarith) (h0.trans h1)
    · exact h0
  have hup1 : (if up then min (warp + 0.1) warpMax else warp) ≤ warpMax := by
    split
    · exact min_le_right _ _
    · exact h1
  split
  · exact ⟨le_max_right _ _, max_le (by linarith) (h0.trans h1)⟩
  · exact ⟨hup0, hup1⟩

lemma updateShipDebugControls_shipInv (inp : FrameInput) (g : GameState)
    (h : ShipInv g.shipStats) : ShipInv (updateShipDebugControls inp g).shipStats := by
  obtain ⟨hf0, hf1, hi0, hi1, hd0, hw0, hw1⟩ := h
  obtain ⟨ha0, ha1⟩ := adjustWarpKeys_bounds inp.arrowUp inp.arrowDown
    g.shipStats.warp g.shipStats.warpMax hw0 hw1
  exact ⟨hf0, hf1, hi0, hi1, hd0, ha0, ha1⟩

lemma collideAsteroidShip_shipInv (k : Nat) (r : ℚ) (s : ShipStats) (sp : Vec3)
    (tgt : Option Nat) (sh : Bool) (a : Asteroid) (h : ShipInv s) :
    ShipInv (collideAsteroidShip k r s sp tgt sh a).1 := by
  obtain ⟨hf0, hf1, hi0, hi1, hd0, hw0, hw1⟩ := h
  simp only [collideAsteroidShip]
  split
  · exact ⟨hf0, hf1, hi0, hi1, le_max_left _ _, hw0, hw1⟩
  · exact ⟨hf0, hf1, hi0, hi1, hd0, hw0, hw1⟩

/-- C4: each ship-state mutation preserves the numeric invariants
`0 ≤ fuel ≤ fuelMax`, `0 ≤ iron ≤ cargoMax`, `0 ≤ distance` and
`0 ≤ warp ≤ warpMax` — for the economy tick (given a fuel reduction in
`[0,1]`), the particle-collection scan (given a nonnegative extractor
multiplier and nonnegative particle yields), the passive debris trickle, the
warp-key adjustment, and collision damage. -/
theorem shipInvariants_preserved (inp : FrameInput) (g : GameState)
    (red mult r : ℚ) (k : Nat) (tgt : Option Nat) (sh : Bool) (a : Asteroid)
    (hInv : ShipInv g.shipStats)
    (hred0 : 0 ≤ red) (hred1 : red ≤ 1) (hmult : 0 ≤ mult) (hr : 0 ≤ r)
    (hps : ∀ p ∈ g.particles, 0 ≤ p.ironValue) :
    ShipInv (economyTick red g.shipStats) ∧
    ShipInv { g.shipStats with
              iron := (updateParticlesGo inp.dt mult g.shipStats.cargoMax
                        g.shipPos g.particles g.shipStats.iron).1 } ∧
    ShipInv (passiveIronCollect r mult g.shipStats) ∧
    ShipInv (updateShipDebugControls inp g).shipStats ∧
    ShipInv (collideAsteroidShip k r g.shipStats g.shipPos tgt sh a).1 := by
  refine ⟨economyTick_shipInv red g.shipStats hInv hred0 hred1, ?_,
    passiveIronCollect_shipInv r mult g.shipStats hInv hr hmult,
    updateShipDebugControls_shipInv inp g hInv,
    collideAsteroidShip_shipInv k r g.shipStats g.shipPos tgt sh a hInv⟩
  obtain ⟨hf0, hf1, hi0, hi1, hd0, hw0, hw1⟩ := hInv
  obtain ⟨hb0, hb1⟩ := updateParticlesGo_iron_bounds inp.dt mult g.shipStats.cargoMax
    g.shipPos g.particles g.shipStats.iron hi0 hi1 hmult hps
  exact ⟨hf0, hf1, hb0, hb1, hd0, hw0, hw1⟩

/-- A fixed random oracle for witnesses. -/
def rng0 : Rng :=
  { countR := 1/2, yieldR := 1/2, spread := fun _ => ⟨0, 0, 0⟩,
    pushDir := fun _ => 0, pushR := fun _ => 1/2, passiveR := 1/2 }

/-- A fixed frame input for witnesses: 60 fps, no keys pressed, nothing
spawned. -/
def inp0 : FrameInput :=
  { dt := 1/60, rng := rng0, shipForward := ⟨0, 0, -1⟩, camForward := ⟨0, 0, -1⟩,
    camRight := ⟨1, 0, 0⟩, keyW := false, keyA := false, keyS := false,
    keyD := false, arrowUp := false, arrowDown := false, hudVisible := false,
    spawnedAsteroid := none, spawnedDebris := fun _ => none }

/-- C4 (witness): the five preservation facts instantiated on the concrete
mid-mission state `gBase`. -/
theorem shipInvariants_preserved_witness :
    ShipInv (economyTick 0 gBase.shipStats) ∧
    ShipInv { gBase.shipStats with
              iron := (updateParticlesGo inp0.dt 1 gBase.shipStats.cargoMax
                        gBase.shipPos gBase.particles gBase.shipStats.iron).1 } ∧
    ShipInv (passiveIronCollect 0 1 gBase.shipStats) ∧
    ShipInv (updateShipDebugControls inp0 gBase).shipStats ∧
    ShipInv (collideAsteroidShip 0 0 gBase.shipStats gBase.shipPos none false aDemo).1 :=
  shipInvariants_preserved inp0 gBase 0 1 0 0 none false aDemo
    (by norm_num [ShipInv, gBase, initialShipStats]) (by norm_num) (by norm_num)
    (by norm_num) (by norm_num) (by norm_num [gBase, pDemo])

/-! ### C5 -/

/-- C5: a live, unlatched asteroid within 5 units of the ship deals
`warp` damage to the distance (clamped at 0) exactly once: the latch is set,
the velocity halved, the asteroid displaced `3 + r*3 ∈ [3,6)` units along
one of the four cardinal axes, targeting on it cleared — and any further
collision check against the resulting asteroid is a strict no-op. -/
theorem collision_oneShot (k : Nat) (r : ℚ) (s : ShipStats) (sp : Vec3)
    (tgt : Option Nat) (sh : Bool) (a : Asteroid)
    (hr0 : 0 ≤ r) (hr1 : r < 1)
    (hd : distSq a.position sp < 5 * 5) (hc : a.isColliding = false) :
    (collideAsteroidShip k r s sp tgt sh a).1.distance = max 0 (s.distance - s.warp) ∧
    (collideAsteroidShip k r s sp tgt sh a).2.2.2.isColliding = true ∧
    (collideAsteroidShip k r s sp tgt sh a).2.2.2.velocity = Vec3.smul 0.5 a.velocity ∧
    (collideAsteroidShip k r s sp tgt sh a).2.2.2.position =
      a.position.add (cardinalPush k (3 + r * 3)) ∧
    (3 ≤ 3 + r * 3 ∧ 3 + r * 3 < 6) ∧
    (cardinalPush k (3 + r * 3) = ⟨3 + r * 3, 0, 0⟩ ∨
     cardinalPush k (3 + r * 3) = ⟨-(3 + r * 3), 0, 0⟩ ∨
     cardinalPush k (3 + r * 3) = ⟨0, 3 + r * 3, 0⟩ ∨
     cardinalPush k (3 + r * 3) = ⟨0, -(3 + r * 3), 0⟩) ∧
    (collideAsteroidShip k r s sp tgt sh a).2.1 =
      (if tgt = some a.id then none else tgt) ∧
    (∀ k2 r2 s2 tgt2 sh2,
      collideAsteroidShip k2 r2 s2 sp tgt2 sh2 (collideAsteroidShip k r s sp tgt sh a).2.2.2 =
        (s2, tgt2, sh2, (collideAsteroidShip k r s sp tgt sh a).2.2.2)) := by
  have hstep : collideAsteroidShip k r s sp tgt sh a =
      ({ s with distance := max 0 (s.distance - s.warp) },
       (if tgt = some a.id then none else tgt), true,
       { a with isColliding := true, velocity := Vec3.smul 0.5 a.velocity,
                position := a.position.add (cardinalPush k (3 + r * 3)) }) := by
    simp only [collideAsteroidShip]
    rw [if_pos ⟨hd, hc⟩]
  refine ⟨by rw [hstep], by rw [hstep], by rw [hstep], by rw [hstep],
    ⟨by linarith, by nlinarith⟩, ?_, by rw [hstep], ?_⟩
  · simp only [cardinalPush]
    split
    · exact Or.inl rfl
    · split
      · exact Or.inr (Or.inl rfl)
      · split
        · exact Or.inr (Or.inr (Or.inl rfl))
        · exact Or.inr (Or.inr (Or.inr rfl))
  · intro k2 r2 s2 tgt2 sh2
    rw [hstep]
    simp only [collideAsteroidShip]
    rw [if_neg]
    simp

/-! ### C3 -/

/-- The eligibility test the source's targeting scan actually implements:
live (`health > 0`), strictly in front (positive dot product with the ship
forward vector), and strictly within the fixed `laserRange` of 30 units. -/
def laserEligible (shipPos shipForward : Vec3) (a : Asteroid) : Prop :=
  0 < a.health ∧ 0 < shipForward.dot (a.position.sub shipPos) ∧
  distSq a.position shipPos < laserRange * laserRange

/-- Modelled from the spec claim (for comparison with the code): a candidate
is targetable when live, in front, and within the base 30-unit range
multiplied by the equipped weapon's range factor. -/
def specClaimedTargetable (rangeFactor : ℚ) (shipPos shipForward : Vec3)
    (a : Asteroid) : Prop :=
  0 < a.health ∧ 0 < shipForward.dot (a.position.sub shipPos) ∧
  distSq a.position shipPos ≤ (laserRange * rangeFactor) * (laserRange * rangeFactor)

/-- The accumulator invariant of the targeting fold over a processed prefix
`l`: an empty accumulator certifies no eligible candidate so far (with the
bound still at the laser range), a full one certifies an eligible member of
minimum distance whose squared distance is the bound. -/
def ScanInv (shipPos shipForward : Vec3) (l : List Asteroid)
    (acc : Option Asteroid × ℚ) : Prop :=
  (acc.1 = none → acc.2 = laserRange * laserRange ∧
    ∀ b ∈ l, ¬ laserEligible shipPos shipForward b) ∧
  (∀ a, acc.1 = some a → a ∈ l ∧ laserEligible shipPos shipForward a ∧
    acc.2 = distSq a.position shipPos ∧
    ∀ b ∈ l, laserEligible shipPos shipForward b →
      distSq a.position shipPos ≤ distSq b.position shipPos)

lemma scanStep_inv (shipPos shipForward : Vec3) (l : List Asteroid)
    (acc : Option Asteroid × ℚ) (b : Asteroid)
    (h : ScanInv shipPos shipForward l acc) :
    ScanInv shipPos shipForward (l ++ [b]) (scanStep shipPos shipForward acc b) := by
  obtain ⟨hnone, hsome⟩ := h
  simp only [scanStep]
  split
  case isTrue hcond =>
    obtain ⟨hdb, hh, hdot⟩ := hcond
    have hb900 : distSq b.position shipPos < laserRange * laserRange := by
      rcases hacc : acc.1 with _ | a0
      · rw [(hnone hacc).1] at hdb
        exact hdb
      · obtain ⟨_, ⟨_, _, ha900⟩, heq, _⟩ := hsome a0 hacc
        rw [heq] at hdb
        exact hdb.trans ha900
    constructor
    · intro hcontra
      simp at hcontra
    · intro a ha
      obtain rfl : b = a := by simpa using ha
      refine ⟨List.mem_append_right _ (by simp), ⟨hh, hdot, hb900⟩, rfl, ?_⟩
      intro c hc heligc
      rcases List.mem_append.mp hc with hcl | hcb
      · rcases hacc : acc.1 with _ | a0
        · exact absurd heligc ((hnone hacc).2 c hcl)
        · obtain ⟨_, _, heq, hmin⟩ := hsome a0 hacc
          have hac := hmin c hcl heligc
          rw [heq] at hdb
          linarith
      · have hcb2 : c = b := by simpa using hcb
        subst hcb2
        exact le_refl _
  case isFalse hcond =>
    constructor
    · intro hacc
      obtain ⟨h2, hall⟩ := hnone hacc
      refine ⟨h2, ?_⟩
      intro c hc
      rcases List.mem_append.mp hc with hcl | hcb
      · exact hall c hcl
      · have hcb2 : c = b := by simpa using hcb
        subst hcb2
        rintro ⟨hh, hdot, h900⟩
        exact hcond ⟨by rwa [h2], hh, hdot⟩
    · intro a hacc
      obtain ⟨hmem, helig, heq, hmin⟩ := hsome a hacc
      refine ⟨List.mem_append_left _ hmem, helig, heq, ?_⟩
      intro c hc heligc
      rcases List.mem_append.mp hc with hcl | hcb
      · exact hmin c hcl heligc
      · have hcb2 : c = b := by simpa using hcb
        subst hcb2
        by_contra hnle
        have hdb : distSq c.position shipPos < acc.2 := by
          rw [heq]
          exact lt_of_not_le hnle
        exact hcond ⟨hdb, heligc.1, heligc.2.1⟩

lemma scanFold_inv (shipPos shipForward : Vec3) (rest : List Asteroid) :
    ∀ (l : List Asteroid) (acc : Option Asteroid × ℚ),
      ScanInv shipPos shipForward l acc →
      ScanInv shipPos shipForward (l ++ rest)
        (rest.foldl (scanStep shipPos shipForward) acc) := by
  induction rest with
  | nil =>
    intro l acc h
    simpa using h
  | cons b rest ih =>
    intro l acc h
    have hstep := scanStep_inv shipPos shipForward l acc b h
    have := ih (l ++ [b]) (scanStep shipPos shipForward acc b) hstep
    simpa [List.append_assoc] using this

lemma scanTarget_inv (shipPos shipForward : Vec3) (asts : List Asteroid) :
    ScanInv shipPos shipForward asts (scanTarget shipPos shipForward asts) := by
  have base : ScanInv shipPos shipForward []
      (none, laserRange * laserRange) := by
    constructor
    · intro _
      exact ⟨rfl, by simp⟩
    · intro a ha
      simp at ha
  have h := scanFold_inv shipPos shipForward asts [] (none, laserRange * laserRange) base
  simpa [scanTarget] using h

/-- The far asteroid (40 units ahead, in front, alive) that the C3
counterexample targets through the claimed range formula. -/
def aFar : Asteroid :=
  { id := 3, position := ⟨0, 0, -40⟩, velocity := ⟨0, 0, 0⟩, rotation := ⟨0, 0, 0⟩,
    rotationSpeed := ⟨0, 0, 0⟩, isColliding := false, health := 1, maxHealth := 1 }

/-- C3 (counterexample): with a weapon range factor of 2 the claim makes the
asteroid 40 units ahead targetable (40 ≤ 30·2), but the code's scan — whose
bound is the fixed 30-unit `laserRange`, never multiplied by the weapon's
range — returns no target, so the claimed selection rule is false. -/
theorem scanTarget_range_counterexample :
    specClaimedTargetable 2 ⟨0, 0, 0⟩ ⟨0, 0, -1⟩ aFar ∧
    (scanTarget ⟨0, 0, 0⟩ ⟨0, 0, -1⟩ [aFar]).1 = none := by
  constructor
  · refine ⟨by norm_num [aFar], ?_, ?_⟩ <;>
      norm_num [aFar, laserRange, distSq, Vec3.sub, Vec3.dot]
  · norm_num [scanTarget, scanStep, aFar, laserRange, distSq, Vec3.sub, Vec3.dot]

/-- C3 (amended): on every tick the scan returns `none` exactly when no live
asteroid is in front of the ship strictly within the fixed 30-unit laser
range (the equipped weapon's range stat is not consulted), in which case the
laser phase clears the current target; otherwise it returns an eligible
asteroid of minimum distance among all eligible ones. -/
theorem scanTarget_spec (shipPos shipForward : Vec3) (asts : List Asteroid) :
    ((scanTarget shipPos shipForward asts).1 = none →
      ∀ b ∈ asts, ¬ laserEligible shipPos shipForward b) ∧
    (∀ a, (scanTarget shipPos shipForward asts).1 = some a →
      a ∈ asts ∧ laserEligible shipPos shipForward a ∧
      ∀ b ∈ asts, laserEligible shipPos shipForward b →
        distSq a.position shipPos ≤ distSq b.position shipPos) ∧
    (∀ (rng : Rng) (dt wm : ℚ) (g : GameState),
      (scanTarget shipPos shipForward g.asteroids).1 = none →
      (laserPhase rng dt wm shipPos shipForward g).currentLaserTarget = none) := by
  obtain ⟨hnone, hsome⟩ := scanTarget_inv shipPos shipForward asts
  refine ⟨fun h => (hnone h).2, ?_, ?_⟩
  · intro a ha
    obtain ⟨hmem, helig, _, hmin⟩ := hsome a ha
    exact ⟨hmem, helig, hmin⟩
  · intro rng dt wm g h
    simp only [laserPhase, h]

/-- The near asteroid (10 units ahead) of the C3 witness. -/
def aNear : Asteroid :=
  { id := 4, position := ⟨0, 0, -10⟩, velocity := ⟨0, 0, 0⟩, rotation := ⟨0, 0, 0⟩,
    rotationSpeed := ⟨0, 0, 0⟩, isColliding := false, health := 1, maxHealth := 1 }

/-- C3 (witness): on the singleton pool holding `aNear` the scan selects it,
and it is eligible and of minimum distance. -/
theorem scanTarget_spec_witness :
    aNear ∈ [aNear] ∧ laserEligible ⟨0, 0, 0⟩ ⟨0, 0, -1⟩ aNear ∧
    ∀ b ∈ [aNear], laserEligible ⟨0, 0, 0⟩ ⟨0, 0, -1⟩ b →
      distSq aNear.position ⟨0, 0, 0⟩ ≤ distSq b.position ⟨0, 0, 0⟩ :=
  (scanTarget_spec ⟨0, 0, 0⟩ ⟨0, 0, -1⟩ [aNear]).2.1 aNear
    (by norm_num [scanTarget, scanStep, aNear, laserRange, distSq, Vec3.sub, Vec3.dot])

/-- The colliding asteroid of the C5 witness: 3 units from the origin. -/
def aColl : Asteroid := { aDemo with position := ⟨0, 0, 3⟩ }

/-- C5 (witness): the collision facts instantiated at a concrete asteroid 3
units from the ship, with push direction 2 (up) and push draw 1/2. -/
theorem collision_oneShot_witness :
    (collideAsteroidShip 2 (1/2) initialShipStats ⟨0, 0, 0⟩ (some 1) false aColl).1.distance =
      max 0 (initialShipStats.distance - initialShipStats.warp) ∧
    (collideAsteroidShip 2 (1/2) initialShipStats ⟨0, 0, 0⟩ (some 1) false aColl).2.2.2.isColliding =
      true ∧
    (collideAsteroidShip 2 (1/2) initialShipStats ⟨0, 0, 0⟩ (some 1) false aColl).2.1 = none := by
  have h := collision_oneShot 2 (1/2) initialShipStats ⟨0, 0, 0⟩ (some 1) false aColl
    (by norm_num) (by norm_num)
    (by norm_num [aColl, aDemo, distSq, Vec3.sub, Vec3.dot]) rfl
  refine ⟨h.1, h.2.1, ?_⟩
  rw [h.2.2.2.2.2.2.1]
  decide

/-! ### C6 -/

lemma updateShipDebugControls_isGameOver (inp : FrameInput) (g : GameState) :
    (updateShipDebugControls inp g).isGameOver = g.isGameOver := rfl

lemma economyAndSpawnBlock_isGameOver (inp : FrameInput) (g : GameState) :
    (economyAndSpawnBlock inp g).isGameOver = g.isGameOver := by
  simp only [economyAndSpawnBlock]
  split <;> split <;> rfl

lemma moveAndCollide_isGameOver (rng : Rng) (dt : ℚ) (sp : Vec3) (g : GameState) :
    (moveAndCollide rng dt sp g).isGameOver = g.isGameOver := rfl

lemma laserPhase_isGameOver (rng : Rng) (dt wm : ℚ) (sp fwd : Vec3) (g : GameState) :
    (laserPhase rng dt wm sp fwd g).isGameOver = g.isGameOver := by
  simp only [laserPhase]
  cases (scanTarget sp fwd g.asteroids).1 with
  | none => rfl
  | some tgt =>
    dsimp only
    split <;> rfl

lemma updateAsteroidsStep_isGameOver (inp : FrameInput) (g : GameState) :
    (updateAsteroidsStep inp g).isGameOver = g.isGameOver := by
  simp only [updateAsteroidsStep]
  rw [moveAndCollide_isGameOver]
  exact laserPhase_isGameOver _ _ _ _ _ _

lemma updateParticlesStep_isGameOver (inp : FrameInput) (g : GameState) :
    (updateParticlesStep inp g).isGameOver = g.isGameOver := rfl

lemma debrisAndPassiveBlock_isGameOver (inp : FrameInput) (g : GameState) :
    (debrisAndPassiveBlock inp g).isGameOver = g.isGameOver := by
  simp only [debrisAndPassiveBlock]
  split <;> split <;> rfl

lemma hudCargoFullCheck_isGameOver (inp : FrameInput) (g : GameState) :
    (hudCargoFullCheck inp g).isGameOver = g.isGameOver := by
  simp only [hudCargoFullCheck]
  split <;> rfl

lemma dangerWarningBlock_isGameOver (g : GameState) :
    (dangerWarningBlock g).isGameOver = g.isGameOver := by
  simp only [dangerWarningBlock]
  split
  · rfl
  · split <;> rfl

/-- No phase of the frame body touches the game-over flag. -/
lemma updateBody_isGameOver (inp : FrameInput) (g : GameState) :
    (updateBody inp g).isGameOver = g.isGameOver := by
  simp only [updateBody]
  repeat' split
  all_goals
    simp [updateShipDebugControls_isGameOver, economyAndSpawnBlock_isGameOver,
      updateAsteroidsStep_isGameOver, updateParticlesStep_isGameOver,
      debrisAndPassiveBlock_isGameOver, hudCargoFullCheck_isGameOver,
      dangerWarningBlock_isGameOver]

/-- The terminal check fired: the state is latched and the loop stopped. -/
lemma update_gameOver_fires (inp : FrameInput) (g : GameState)
    (h1 : g.shipStats.distance ≤ 0) (h2 : g.isGameOver = false) :
    update inp g = gameOverSet g := by
  simp only [update]
  rw [if_pos ⟨h1, h2⟩]

/-- C6 (amended): the terminal check runs at the START of each frame, before
movement, collision and the economy step — when it fires (distance ≤ 0 at
entry, regardless of the 1-second accumulator), the frame latches game over,
stops the loop and advances nothing else; when the frame starts with
positive distance, nothing later in that same frame (collisions included)
can change the game-over flag, so a collision that zeroes the distance only
triggers game over at the start of the NEXT frame; and a stopped loop no
longer advances the state. -/
theorem update_terminalCheck (inp : FrameInput) (g : GameState) :
    (g.shipStats.distance ≤ 0 → g.isGameOver = false → update inp g = gameOverSet g) ∧
    (0 < g.shipStats.distance → (update inp g).isGameOver = g.isGameOver) ∧
    (g.isRunning = false → loopStep inp g = g) := by
  refine ⟨update_gameOver_fires inp g, ?_, ?_⟩
  · intro h
    simp only [update]
    rw [if_neg (by rintro ⟨hc, _⟩; linarith)]
    exact updateBody_isGameOver inp g
  · intro h
    simp [loopStep, h]

/-- The C6 counterexample state: distance 3, warp 4, one unlatched asteroid
3 units from the ship (behind the laser cone, so no laser interaction), under
manual control. -/
def gC6 : GameState :=
  { gBase with
    shipStats := { initialShipStats with distance := 3, warp := 4 },
    asteroids := [aColl],
    particles := [],
    tutorialShown := { shieldHit := false, asteroidDestroyed := false,
                       cargoFull := false, controls := false } }

/-- C6 (counterexample): a collision inside the frame drives the distance to
0 — `max 0 (3 - 4)` — yet the same frame does NOT trigger game over (the
terminal check already ran at the frame's start); the flag only latches at
the start of the next frame. -/
theorem update_sameTick_counterexample :
    (update inp0 gC6).shipStats.distance = 0 ∧
    (update inp0 gC6).isGameOver = false ∧
    (update inp0 (update inp0 gC6)).isGameOver = true := by
  have hg : (update inp0 gC6).isGameOver = false := by
    have hcond : ¬ (gC6.shipStats.distance ≤ 0 ∧ gC6.isGameOver = false) := by
      norm_num [gC6, gBase, initialShipStats]
    simp only [update]
    rw [if_neg hcond, updateBody_isGameOver]
    rfl
  have hd : (update inp0 gC6).shipStats.distance = 0 := by
    norm_num [update, updateBody, gC6, gBase, inp0, rng0, aColl, aDemo,
      initialShipStats, updateShipDebugControls, adjustWarpKeys,
      economyAndSpawnBlock, economyTick, updateAsteroidsStep, laserPhase,
      scanTarget, scanStep, getWeaponMultiplier, cullFarAsteroids,
      moveAndCollide, moveCollideOne, integrateAsteroid, collideAsteroidShip,
      cardinalPush, updateParticlesStep, updateParticlesGo,
      getExtractorMultiplier, debrisAndPassiveBlock, updateDebrisGo,
      passiveIronCollect, hudCargoFullCheck, dangerWarningBlock, distSq,
      Vec3.add, Vec3.sub, Vec3.smul, Vec3.dot, laserRange,
      asteroidSpawnInterval, debrisSpawnInterval, passiveIronInterval,
      gameOverSet, equilibriumWarp]
  refine ⟨hd, hg, ?_⟩
  rw [update_gameOver_fires inp0 _ (le_of_eq hd) hg]
  rfl

/-- C6 (witness): with the distance at 0 the very next frame latches game
over and stops the loop; from `gBase` (distance 100) a frame leaves the flag
alone; and a stopped state does not advance. -/
theorem update_terminalCheck_witness :
    update inp0 { gBase with shipStats := { gBase.shipStats with distance := 0 } }
      = gameOverSet { gBase with shipStats := { gBase.shipStats with distance := 0 } } ∧
    (update inp0 gBase).isGameOver = gBase.isGameOver ∧
    loopStep inp0 { gBase with isRunning := false } = { gBase with isRunning := false } :=
  ⟨(update_terminalCheck inp0 _).1 (le_refl 0) rfl,
   (update_terminalCheck inp0 gBase).2.1 (by norm_num [gBase, initialShipStats]),
   (update_terminalCheck inp0 _).2.2 rfl⟩

/-! ### C8 -/

/-- The equipped weapon of the C8 scenario, with power multiplier `m`. -/
def wPow (m : ℚ) : WeaponItem :=
  { id := "laser_mk1", price := 0, power := m, range := 30 }

/-- The targeted asteroid of the C8 scenario: stationary, 10 units ahead of
the ship (inside laser range, outside collision range), health `h`. -/
def aT (h : ℚ) : Asteroid :=
  { id := 7, position := ⟨0, 0, 10⟩, velocity := ⟨0, 0, 0⟩, rotation := ⟨0, 0, 0⟩,
    rotationSpeed := ⟨0, 0, 0⟩, isColliding := false, health := h, maxHealth := 5 }

/-- The C8 scenario state: weapon multiplier `m`, a single asteroid of
health `h`, current target `t`. -/
def gT (m h : ℚ) (t : Option Nat) : GameState :=
  { shipStats := initialShipStats,
    credits := 0,
    ownedUpgrades := { ship := "base_ship", weapon := "laser_mk1",
                       engine := "standard_drive", extractor := "basic_collector" },
    weaponsData := [wPow m], enginesData := [], extractorsData := [],
    fuelConsumptionTimer := 0, asteroidSpawnTimer := 0,
    debrisSpawnTimer := 0, passiveIronTimer := 0,
    asteroids := [aT h], particles := [], debrisParticles := [],
    currentLaserTarget := t,
    isGameOver := false, isRunning := true, shipDebugMode := true,
    tutorialShown := { shieldHit := false, asteroidDestroyed := false,
                       cargoFull := false, controls := false },
    dangerWarningShown := false,
    shipPos := ⟨0, 0, 0⟩, cameraPos := ⟨0, 8, 15⟩, gameTime := 0 }

/-- The frame input of the C8 scenario: the ship faces the asteroid. -/
def inpT (rng : Rng) (dt : ℚ) : FrameInput :=
  { dt := dt, rng := rng, shipForward := ⟨0, 0, 1⟩, camForward := ⟨0, 0, -1⟩,
    camRight := ⟨1, 0, 0⟩, keyW := false, keyA := false, keyS := false,
    keyD := false, arrowUp := false, arrowDown := false, hudVisible := false,
    spawnedAsteroid := none, spawnedDebris := fun _ => none }

/-- The explosion batch produced at the scenario asteroid's position. -/
def explosionBatch (rng : Rng) : List Particle :=
  createParticleExplosion rng ⟨0, 0, 10⟩ ⟨0, 0, 0⟩ []

lemma laserTick_alive (rng : Rng) (dt m h : ℚ) (t : Option Nat)
    (hh : 0 < h) (hal : 0 < h - dt * m) :
    updateAsteroidsStep (inpT rng dt) (gT m h t) = gT m (h - dt * m) (some 7) := by
  have hnk : ¬ (h - dt * m ≤ 0) := not_le.mpr hal
  norm_num [updateAsteroidsStep, laserPhase, scanTarget, scanStep,
    getWeaponMultiplier, wPow, gT, aT, inpT, cullFarAsteroids, moveAndCollide,
    moveCollideOne, integrateAsteroid, collideAsteroidShip, distSq, Vec3.add,
    Vec3.sub, Vec3.smul, Vec3.dot, laserRange, hh, hnk]

lemma laserTick_destroy (rng : Rng) (dt m h : ℚ) (t : Option Nat)
    (hh : 0 < h) (hkill : h - dt * m ≤ 0) :
    updateAsteroidsStep (inpT rng dt) (gT m h t) =
      { gT m h t with
        particles := explosionBatch rng,
        asteroids := [],
        currentLaserTarget := none,
        tutorialShown := { shieldHit := false, asteroidDestroyed := true,
                           cargoFull := false, controls := false } } := by
  norm_num [updateAsteroidsStep, laserPhase, scanTarget, scanStep,
    getWeaponMultiplier, wPow, gT, aT, inpT, cullFarAsteroids, moveAndCollide,
    moveCollideOne, integrateAsteroid, collideAsteroidShip, distSq, Vec3.add,
    Vec3.sub, Vec3.smul, Vec3.dot, laserRange, hh, hkill, explosionBatch]

lemma laserIter_alive (rng : Rng) (dt m h : ℚ) (hdt : 0 < dt) (hm : 0 < m) :
    ∀ n : Nat, (n : ℚ) * dt * m < h →
      ∃ t, (updateAsteroidsStep (inpT rng dt))^[n] (gT m h none) =
        gT m (h - n * dt * m) t := by
  intro n
  induction n with
  | zero =>
    intro _
    exact ⟨none, by norm_num⟩
  | succ n ih =>
    intro hn1
    have hdm : 0 < dt * m := mul_pos hdt hm
    have hcast : ((n + 1 : Nat) : ℚ) = (n : ℚ) + 1 := by push_cast; ring
    rw [hcast] at hn1
    have hn : (n : ℚ) * dt * m < h := by nlinarith
    obtain ⟨t, ht⟩ := ih hn
    have hh : 0 < h - (n : ℚ) * dt * m := by linarith
    have hal : 0 < (h - (n : ℚ) * dt * m) - dt * m := by nlinarith
    refine ⟨some 7, ?_⟩
    rw [Function.iterate_succ_apply', ht, laserTick_alive rng dt m _ t hh hal]
    congr 1
    push_cast
    ring

lemma explosionCount_bounds (r : ℚ) (h0 : 0 ≤ r) (h1 : r < 1) :
    160 ≤ explosionCount r ∧ explosionCount r ≤ 280 := by
  have hf0 : (0 : ℤ) ≤ Int.floor (r * 120) := Int.floor_nonneg.mpr (by positivity)
  have hf1 : Int.floor (r * 120) < 120 := Int.floor_lt.mpr (by push_cast; nlinarith)
  simp only [explosionCount]
  omega

lemma explosionBatch_length (rng : Rng) :
    (explosionBatch rng).length = explosionCount rng.countR := by
  simp [explosionBatch, createParticleExplosion]

lemma explosionBatch_ironValue (rng : Rng) :
    ∀ p ∈ explosionBatch rng,
      p.ironValue = explosionYield rng.yieldR / explosionCount rng.countR := by
  intro p hp
  simp only [explosionBatch, createParticleExplosion, List.nil_append,
    List.mem_map, List.mem_range] at hp
  obtain ⟨i, _, rfl⟩ := hp
  rfl

lemma explosionBatch_total (rng : Rng) :
    ((explosionBatch rng).map Particle.ironValue).sum = explosionYield rng.yieldR := by
  have hne : (explosionCount rng.countR : ℚ) ≠ 0 := by
    have : 0 < explosionCount rng.countR := by
      simp only [explosionCount]
      omega
    exact_mod_cast this.ne'
  simp only [explosionBatch, createParticleExplosion, List.nil_append,
    List.map_map]
  have hmap : (List.range (explosionCount rng.countR)).map
      (Particle.ironValue ∘ fun i =>
        { position := ⟨0, 0, 10⟩,
          velocity := Vec3.add ⟨0, 0, 0⟩ (rng.spread i),
          lifetime := 10, age := 0,
          ironValue := explosionYield rng.yieldR / explosionCount rng.countR,
          collected := false }) =
      List.replicate (explosionCount rng.countR)
        (explosionYield rng.yieldR / explosionCount rng.countR) := by
    refine List.eq_replicate.mpr ⟨by simp, ?_⟩
    intro b hb
    simp only [List.mem_map, List.mem_range] at hb
    obtain ⟨i, _, rfl⟩ := hb
    rfl
  rw [hmap, List.sum_replicate, nsmul_eq_mul, mul_div_cancel₀ _ hne]

/-- C8: in the single-asteroid targeting scenario, while the cumulative
targeted time `n·dt` stays below `h/m` the asteroid survives with health
`h − n·dt·m`; on the first tick taking the cumulative time to `≥ h/m` it is
destroyed — the pool empties, the target clears, and exactly one explosion
batch is created whose particle count lies in `[160, 280]`, whose every
particle carries `totalYield/count` iron, and whose total iron is the
randomized yield `0.5 + yieldR·1.5 ∈ [0.5, 2]`. -/
theorem laserDestruction_spec (rng : Rng) (dt m h : ℚ) (n : Nat)
    (hdt : 0 < dt) (hm : 0 < m)
    (hc0 : 0 ≤ rng.countR) (hc1 : rng.countR < 1)
    (hy0 : 0 ≤ rng.yieldR) (hy1 : rng.yieldR < 1)
    (hn : (n : ℚ) * dt < h / m) (hn1 : h / m ≤ ((n : ℚ) + 1) * dt) :
    (∃ t, (updateAsteroidsStep (inpT rng dt))^[n] (gT m h none) =
      gT m (h - n * dt * m) t) ∧
    ((updateAsteroidsStep (inpT rng dt))^[n + 1] (gT m h none)).asteroids = [] ∧
    ((updateAsteroidsStep (inpT rng dt))^[n + 1] (gT m h none)).currentLaserTarget = none ∧
    ((updateAsteroidsStep (inpT rng dt))^[n + 1] (gT m h none)).particles =
      explosionBatch rng ∧
    (explosionBatch rng).length = explosionCount rng.countR ∧
    160 ≤ explosionCount rng.countR ∧
    explosionCount rng.countR ≤ 280 ∧
    (∀ p ∈ explosionBatch rng,
      p.ironValue = explosionYield rng.yieldR / explosionCount rng.countR) ∧
    ((explosionBatch rng).map Particle.ironValue).sum = explosionYield rng.yieldR ∧
    1/2 ≤ explosionYield rng.yieldR ∧ explosionYield rng.yieldR ≤ 2 := by
  have hnm : (n : ℚ) * dt * m < h := by
    calc (n : ℚ) * dt * m < h / m * m := mul_lt_mul_of_pos_right hn hm
      _ = h := div_mul_cancel₀ h hm.ne'
  have hkillq : h ≤ ((n : ℚ) + 1) * dt * m := by
    calc h = h / m * m := (div_mul_cancel₀ h hm.ne').symm
      _ ≤ ((n : ℚ) + 1) * dt * m := mul_le_mul_of_nonneg_right hn1 hm.le
  obtain ⟨t, ht⟩ := laserIter_alive rng dt m h hdt hm n hnm
  have hh : 0 < h - (n : ℚ) * dt * m := by linarith
  have hkill : (h - (n : ℚ) * dt * m) - dt * m ≤ 0 := by nlinarith
  have hdest := laserTick_destroy rng dt m (h - (n : ℚ) * dt * m) t hh hkill
  have hiter : (updateAsteroidsStep (inpT rng dt))^[n + 1] (gT m h none) =
      { gT m (h - (n : ℚ) * dt * m) t with
        particles := explosionBatch rng,
        asteroids := [],
        currentLaserTarget := none,
        tutorialShown := { shieldHit := false, asteroidDestroyed := true,
                           cargoFull := false, controls := false } } := by
    rw [Function.iterate_succ_apply', ht, hdest]
  obtain ⟨hb0, hb1⟩ := explosionCount_bounds rng.countR hc0 hc1
  refine ⟨⟨t, ht⟩, by rw [hiter], by rw [hiter], by rw [hiter],
    explosionBatch_length rng, hb0, hb1, explosionBatch_ironValue rng,
    explosionBatch_total rng, ?_, ?_⟩ <;>
    simp only [explosionYield] <;> nlinarith

/-- C8 (witness): with `dt = 1/2`, multiplier 1 and health 1, the asteroid
survives the first tick and is destroyed on the second (cumulative time 1 =
h/m), and the fixed oracle's batch size lies in `[160, 280]`. -/
theorem laserDestruction_spec_witness :
    ((updateAsteroidsStep (inpT rng0 (1/2)))^[2] (gT 1 1 none)).asteroids = [] ∧
    160 ≤ explosionCount rng0.countR ∧ explosionCount rng0.countR ≤ 280 := by
  have h := laserDestruction_spec rng0 (1/2) 1 1 1 (by norm_num) (by norm_num)
    (by norm_num [rng0]) (by norm_num [rng0]) (by norm_num [rng0])
    (by norm_num [rng0]) (by norm_num) (by norm_num)
  exact ⟨h.2.1, h.2.2.2.2.2.1, h.2.2.2.2.2.2.1⟩

end LD58
